import Mathlib

/-!
# Concepta study-aid client — verification of the state manager

Shallow embedding of `src/frontend/app.js` (class `ConceptaApp`). The
mutable `this.state` object becomes the `AppState` structure; each
state-mutating method becomes a function `AppState → ...`. DOM rendering
and `console` logging are outside the model; user-facing toast messages
(`showNotification`) are modelled by the `Notif` type, and the browser's
local key-value storage by explicit `StoredData` values threaded through
the persistence operations. JS strings are modelled as Lean `String`
(or `List Char` where character-level reasoning is needed); JS numbers
holding array indices are `Nat`, with `Int` used where the source's
arithmetic can go below zero.
-/

/-- A flashcard record `{question, answer}` as produced by the backend
or local storage (app.js: `Flashcard` objects in `state.flashcards`). -/
structure Flashcard where
  question : String
  answer : String
deriving DecidableEq, Repr

/-- The kinds accepted by `showNotification(message, type)` (app.js 863). -/
inductive NotifKind where
  | success
  | error
  | warning
  | info
deriving DecidableEq, Repr

/-- One toast created by `showNotification` (app.js 863-899). -/
structure Notif where
  message : String
  kind : NotifKind
deriving DecidableEq, Repr

/-- The `this.state` object of `ConceptaApp` (app.js 7-19). Enum-like
fields are the JS strings the source stores. -/
structure AppState where
  currentTab : String
  currentDifficulty : String
  theme : String
  flashcards : List Flashcard
  currentFlashcardIndex : Nat
  isFlashcardFlipped : Bool
  connectionStatus : String
  model : String
  apiUrl : String
  backendUrl : String
  isPhi3 : Bool
deriving DecidableEq, Repr

/-- The initial state built in the constructor (app.js 7-19). -/
def initialState : AppState :=
  { currentTab := "explainer"
    currentDifficulty := "beginner"
    theme := "dark"
    flashcards := []
    currentFlashcardIndex := 0
    isFlashcardFlipped := false
    connectionStatus := "disconnected"
    model := "phi3:mini"
    apiUrl := "http://localhost:11434"
    backendUrl := "http://localhost:8000"
    isPhi3 := true }

/-- `navigateFlashcard(direction)` (app.js 729-739): no-op on an empty
deck; otherwise `newIndex = index + direction`, clamped circularly
(`< 0 ↦ len-1`, `≥ len ↦ 0`), and the flipped flag is cleared. The
intermediate index is a JS number that can be `-1`, hence `Int`. -/
def navigateFlashcard (st : AppState) (direction : Int) : AppState :=
  if st.flashcards.length = 0 then st
  else
    let len : Int := st.flashcards.length
    let n1 : Int := st.currentFlashcardIndex + direction
    let n2 : Int := if n1 < 0 then len - 1 else n1
    let n3 : Int := if n2 ≥ len then 0 else n2
    { st with currentFlashcardIndex := n3.toNat, isFlashcardFlipped := false }

/-- `flipFlashcard()` (app.js 741-744): unconditionally toggles
`isFlashcardFlipped` — the source has no empty-deck guard here. -/
def flipFlashcard (st : AppState) : AppState :=
  { st with isFlashcardFlipped := !st.isFlashcardFlipped }

-- Basic field lemmas about navigation.

theorem navigateFlashcard_flashcards (st : AppState) (d : Int) :
    (navigateFlashcard st d).flashcards = st.flashcards := by
  unfold navigateFlashcard
  split <;> rfl

theorem navigateFlashcard_index_plus_one (st : AppState)
    (h0 : 0 < st.flashcards.length)
    (hi : st.currentFlashcardIndex < st.flashcards.length) :
    (navigateFlashcard st 1).currentFlashcardIndex
      = (st.currentFlashcardIndex + 1) % st.flashcards.length := by
  unfold navigateFlashcard
  rw [if_neg (by omega)]
  simp only
  rcases Nat.lt_or_ge (st.currentFlashcardIndex + 1) st.flashcards.length with h | h
  · rw [Nat.mod_eq_of_lt h]
    split_ifs <;> omega
  · have he : st.currentFlashcardIndex + 1 = st.flashcards.length := by omega
    rw [he, Nat.mod_self]
    split_ifs <;> omega

theorem navigateFlashcard_index_minus_one (st : AppState)
    (h0 : 0 < st.flashcards.length)
    (hi : st.currentFlashcardIndex < st.flashcards.length) :
    (navigateFlashcard st (-1)).currentFlashcardIndex
      = (st.currentFlashcardIndex + st.flashcards.length - 1)
          % st.flashcards.length := by
  unfold navigateFlashcard
  rw [if_neg (by omega)]
  simp only
  rcases Nat.eq_zero_or_pos st.currentFlashcardIndex with h | h
  · rw [h]
    rw [Nat.mod_eq_of_lt (by omega)]
    split_ifs <;> omega
  · have he : st.currentFlashcardIndex + st.flashcards.length - 1
        = (st.currentFlashcardIndex - 1) + st.flashcards.length := by omega
    rw [he, Nat.add_mod_right, Nat.mod_eq_of_lt (by omega)]
    split_ifs <;> omega

theorem navigateFlashcard_flipped (st : AppState) (d : Int)
    (h0 : 0 < st.flashcards.length) :
    (navigateFlashcard st d).isFlashcardFlipped = false := by
  unfold navigateFlashcard
  rw [if_neg (by omega)]

theorem navigateFlashcard_iterate (st : AppState) (k : Nat)
    (h0 : 0 < st.flashcards.length)
    (hi : st.currentFlashcardIndex < st.flashcards.length) :
    ((fun s => navigateFlashcard s 1)^[k] st).flashcards = st.flashcards ∧
    ((fun s => navigateFlashcard s 1)^[k] st).currentFlashcardIndex
      = (st.currentFlashcardIndex + k) % st.flashcards.length := by
  induction k with
  | zero => exact ⟨rfl, (Nat.mod_eq_of_lt hi).symm⟩
  | succ k ih =>
    obtain ⟨hfc, hidx⟩ := ih
    rw [Function.iterate_succ_apply']
    set s := (fun s => navigateFlashcard s 1)^[k] st with hs
    have h0' : 0 < s.flashcards.length := by rw [hfc]; exact h0
    have hi' : s.currentFlashcardIndex < s.flashcards.length := by
      rw [hfc, hidx]
      exact Nat.mod_lt _ h0
    refine ⟨by rw [navigateFlashcard_flashcards, hfc], ?_⟩
    rw [navigateFlashcard_index_plus_one s h0' hi', hfc, hidx,
      Nat.mod_add_mod, Nat.add_assoc]

/-- One iteration body of the shuffle loop (app.js 751): swap the
elements at positions `i` and `j` of the deck. Out-of-range indices
leave the list unchanged (unreachable in the source's loop). -/
def swapL (l : List Flashcard) (i j : Nat) : List Flashcard :=
  match l[i]?, l[j]? with
  | some a, some b => (l.set i b).set j a
  | _, _ => l

/-- The Fisher–Yates loop of `shuffleFlashcards` (app.js 749-752):
`for (let i = len - 1; i > 0; i--) { j = floor(random()*(i+1)); swap i j }`.
The stream of random draws is a function `c`; `c i % (i + 1)` ranges over
exactly the values `Math.floor(Math.random() * (i + 1))` can take. -/
def fyLoop (c : Nat → Nat) : Nat → List Flashcard → List Flashcard
  | 0, l => l
  | i + 1, l => fyLoop c i (swapL l (i + 1) (c (i + 1) % (i + 2)))

/-- `shuffleFlashcards()` (app.js 746-758): no-op on an empty deck;
otherwise runs the Fisher–Yates loop from `len - 1` down to `1`, resets
the cursor to 0 and the flipped flag to false, and shows a success
toast. -/
def shuffleFlashcards (c : Nat → Nat) (st : AppState) :
    AppState × Option Notif :=
  if st.flashcards.length = 0 then (st, none)
  else
    ({ st with
        flashcards := fyLoop c (st.flashcards.length - 1) st.flashcards
        currentFlashcardIndex := 0
        isFlashcardFlipped := false },
      some ⟨"Flashcards shuffled!", NotifKind.success⟩)

theorem cons_set_perm {α : Type} (l : List α) (j : Nat) (b : α)
    (hj : j < l.length) :
    List.Perm (l[j] :: l.set j b) (b :: l) := by
  induction l generalizing j with
  | nil => simp at hj
  | cons a t ih =>
    cases j with
    | zero => simpa using List.Perm.swap b a t
    | succ k =>
      have hk : k < t.length := by simpa using hj
      have step := ih k hk
      have h1 : List.Perm (t[k] :: a :: t.set k b) (a :: t[k] :: t.set k b) :=
        List.Perm.swap a (t[k]) (t.set k b)
      have h2 : List.Perm (a :: t[k] :: t.set k b) (a :: b :: t) :=
        step.cons a
      have h3 : List.Perm (a :: b :: t) (b :: a :: t) :=
        List.Perm.swap b a t
      simpa using (h1.trans h2).trans h3

theorem swapL_perm (l : List Flashcard) (i j : Nat) :
    List.Perm (swapL l i j) l := by
  unfold swapL
  split
  · next a b hia hjb =>
    obtain ⟨hi, hai⟩ := List.getElem?_eq_some_iff.mp hia
    obtain ⟨hj, hbj⟩ := List.getElem?_eq_some_iff.mp hjb
    have hj' : j < (l.set i b).length := by simpa using hj
    have hget : (l.set i b)[j] = b := by
      rw [List.getElem_set]
      split
      · rfl
      · exact hbj
    have p1 : List.Perm ((l.set i b)[j] :: (l.set i b).set j a)
        (a :: l.set i b) := cons_set_perm (l.set i b) j a hj'
    have p2 : List.Perm (l[i] :: l.set i b) (b :: l) :=
      cons_set_perm l i b hi
    rw [hget] at p1
    rw [hai] at p2
    exact List.Perm.cons_inv (p1.trans p2)
  · exact List.Perm.refl l

theorem fyLoop_perm (c : Nat → Nat) (i : Nat) (l : List Flashcard) :
    List.Perm (fyLoop c i l) l := by
  induction i generalizing l with
  | zero => exact List.Perm.refl l
  | succ k ih =>
    exact (ih (swapL l (k + 1) (c (k + 1) % (k + 2)))).trans
      (swapL_perm l (k + 1) (c (k + 1) % (k + 2)))

/-- The value a `localStorage.getItem` + `JSON.parse` round trip can
yield for a key: the key is absent (`getItem` returns `null`), present
but malformed (`JSON.parse` throws), or present and well-formed. -/
inductive StoredData (α : Type) where
  | absent
  | malformed
  | valid (v : α)
deriving DecidableEq, Repr

/-- `loadFlashcards()` (app.js 661-676): if `getItem` is non-null,
parse, replace the deck, reset cursor and flipped flag, and show a
success toast; if absent, show an info toast; a parse failure is caught
and shows an error toast, leaving the state untouched. Returns the new
state and the toast raised. -/
def loadFlashcards (st : AppState) (stored : StoredData (List Flashcard)) :
    AppState × Option Notif :=
  match stored with
  | StoredData.absent =>
      (st, some ⟨"No saved flashcards found", NotifKind.info⟩)
  | StoredData.malformed =>
      (st, some ⟨"Failed to load flashcards", NotifKind.error⟩)
  | StoredData.valid deck =>
      ({ st with
          flashcards := deck
          currentFlashcardIndex := 0
          isFlashcardFlipped := false },
        some ⟨"Loaded " ++ toString deck.length ++ " flashcards",
          NotifKind.success⟩)

/-- Result of `saveFlashcards()`: the flashcards slot of local storage
afterwards, and the toast raised. -/
structure SaveResult where
  store : StoredData (List Flashcard)
  notif : Notif
deriving DecidableEq, Repr

/-- `saveFlashcards()` (app.js 678-690): an empty deck only raises a
warning toast and writes nothing; otherwise `setItem` stores the
serialized deck (`writeOk = true`) or throws (`writeOk = false`,
caught: error toast, storage untouched). -/
def saveFlashcards (st : AppState) (store : StoredData (List Flashcard))
    (writeOk : Bool) : SaveResult :=
  if st.flashcards.length = 0 then
    ⟨store, ⟨"No flashcards to save", NotifKind.warning⟩⟩
  else if writeOk then
    ⟨StoredData.valid st.flashcards,
      ⟨"Saved " ++ toString st.flashcards.length ++ " flashcards",
        NotifKind.success⟩⟩
  else
    ⟨store, ⟨"Failed to save flashcards", NotifKind.error⟩⟩

/-- The parsed `concepta_settings` object; each field may be absent
from the stored JSON (app.js 771-773 guard with `||`). -/
structure StoredSettings where
  theme : Option String
  model : Option String
  apiUrl : Option String
deriving DecidableEq, Repr

/-- JS `a || d` on a string-or-missing value: missing, `null` and the
empty string are falsy and yield the default. -/
def jsOr (v : Option String) (d : String) : String :=
  match v with
  | none => d
  | some s => if s = "" then d else s

/-- `loadSettings()` (app.js 766-782): absent key leaves the state
untouched; a parse failure is caught and only logged to the console
(no toast, state untouched); a parsed object installs each field with
its `||` default and recomputes `isPhi3`. -/
def loadSettings (st : AppState) (stored : StoredData StoredSettings) :
    AppState :=
  match stored with
  | StoredData.absent => st
  | StoredData.malformed => st
  | StoredData.valid s =>
      let model := jsOr s.model "phi3:mini"
      { st with
          theme := jsOr s.theme "dark"
          model := model
          apiUrl := jsOr s.apiUrl "http://localhost:11434"
          isPhi3 := model.startsWith "phi3" }

/-- JS `String.prototype.trim()` on a text modelled as `List Char`:
drop whitespace from both ends. -/
def jsTrim (s : List Char) : List Char :=
  ((s.dropWhile Char.isWhitespace).reverse.dropWhile Char.isWhitespace).reverse

/-- Outcome of the validation prologue shared by the four generation
handlers (app.js 326-338, 420-431, 515-526, 621-632): the input
element's value afterwards, the toast raised (if any), whether the
fetch was issued, and the text sent in its body when it was. -/
structure SubmitCheck where
  newValue : List Char
  notif : Option Notif
  callIssued : Bool
  sentText : List Char
deriving DecidableEq, Repr

/-- The common shape of the four handlers' validation prologue:
`const t = input.value.trim(); if (!t) { warn; return; }
if (t.length > limit) { toast; input.value = t.substring(0, limit);
return; } ...fetch with t...`. `overKind` is `warning` for the
explainer (app.js 334) and `info` for the other three handlers. -/
def submitCheck (limit : Nat) (emptyMsg overMsg : String)
    (overKind : NotifKind) (value : List Char) : SubmitCheck :=
  let t := jsTrim value
  if t.length = 0 then
    ⟨value, some ⟨emptyMsg, NotifKind.warning⟩, false, []⟩
  else if t.length > limit then
    ⟨t.take limit, some ⟨overMsg, overKind⟩, false, []⟩
  else
    ⟨value, none, true, t⟩

/-- Validation prologue of `generateExplanation()` (app.js 326-338). -/
def generateExplanationCheck (value : List Char) : SubmitCheck :=
  submitCheck 500 "Please enter a topic to explain"
    "Topic too long. Limited to 500 chars for Phi-3." NotifKind.warning value

/-- Validation prologue of `summarizeNotes()` (app.js 420-431). -/
def summarizeNotesCheck (value : List Char) : SubmitCheck :=
  submitCheck 2000 "Please enter notes to summarize"
    "Notes too long. Limited to 2000 chars." NotifKind.info value

/-- Validation prologue of `generateQuiz()` (app.js 515-526). -/
def generateQuizCheck (value : List Char) : SubmitCheck :=
  submitCheck 1000 "Please enter content for quiz"
    "Content too long. Limited to 1000 chars." NotifKind.info value

/-- Validation prologue of `generateFlashcards()` (app.js 621-632). -/
def generateFlashcardsCheck (value : List Char) : SubmitCheck :=
  submitCheck 800 "Please enter content for flashcards"
    "Content too long. Limited to 800 chars." NotifKind.info value

/-- `validateInput(input, max)` (app.js 148-153), run on every `input`
event: truncate the element's value to `max` and warn when it is over
the limit. Returns the new value and the toast (if any). -/
def validateInput (value : List Char) (max : Nat) :
    (List Char) × Option Notif :=
  if value.length > max then
    (value.take max,
      some ⟨"Limited to " ++ toString max ++
        " characters for Phi-3 optimization", NotifKind.warning⟩)
  else
    (value, none)

/-- One quiz question from the backend response (app.js: fields used by
`renderQuiz`, optional ones guarded with `||` / `?`). -/
structure QuizQuestion where
  question : String
  qtype : Option String
  options : Option (List String)
  answer : String
  explanation : Option String
deriving DecidableEq, Repr

/-- The `/quiz` response body (app.js 545): `{questions, difficulty}`,
where `questions` may be absent from the JSON. -/
structure QuizResp where
  questions : Option (List QuizQuestion)
  difficulty : String
deriving DecidableEq, Repr

/-- What occupies the quiz output region after the handler finishes. -/
inductive QuizPanel where
  | emptyState
  | questionList (n : Nat)
  | errorPanel
deriving DecidableEq, Repr

/-- `renderQuiz(data)` (app.js 556-618): `questions = data.questions || []`;
an empty list renders the inline empty-state block, otherwise the
numbered question list. -/
def renderQuiz (data : QuizResp) : QuizPanel :=
  let questions := data.questions.getD []
  if questions.length = 0 then QuizPanel.emptyState
  else QuizPanel.questionList questions.length

/-- The response-handling tail of `generateQuiz()` on a 2xx response
(app.js 545-553): render, then toast
`Quiz generated with ${data.questions.length} questions!`. When
`questions` is absent from the body, that `.length` read throws a
TypeError after `renderQuiz` has already run; the `catch` then
overwrites the region with the error panel and raises the error
toast. -/
def generateQuizResponse (data : QuizResp) : QuizPanel × Notif :=
  match data.questions with
  | some qs =>
      (renderQuiz data,
        ⟨"Quiz generated with " ++ toString qs.length ++ " questions!",
          NotifKind.success⟩)
  | none => (QuizPanel.errorPanel, ⟨"Quiz generation failed", NotifKind.error⟩)

/-- The response-handling tail of `generateFlashcards()` on a 2xx
response (app.js 647-653): `flashcards = data.flashcards || []`, cursor
to 0, flipped to false, success toast reporting the count. -/
def generateFlashcardsResponse (st : AppState)
    (body : Option (List Flashcard)) : AppState × Notif :=
  let deck := body.getD []
  ({ st with
      flashcards := deck
      currentFlashcardIndex := 0
      isFlashcardFlipped := false },
    ⟨"Generated " ++ toString deck.length ++ " flashcards with Phi-3!",
      NotifKind.success⟩)

/-- Observable outcome of `initializeApp()` (app.js 205-245). -/
structure InitOutcome where
  ollamaChecked : Bool
  overlayHidden : Bool
  backendRemediationShown : Bool
  notif : Option Notif
  connectionStatus : String
deriving DecidableEq, Repr

/-- `initializeApp()` (app.js 205-245): `checkBackend()` sets the
connection status and returns `backendOk`; on failure the remediation
text is installed and the method returns — `checkOllama()` never runs
and the loading overlay is never hidden. On success `checkOllama()`
runs and, after the 1000 ms timeout, the overlay hides and the
readiness toast (success or warning) fires. -/
def initializeApp (backendOk ollamaOk : Bool) : InitOutcome :=
  if backendOk = false then
    { ollamaChecked := false
      overlayHidden := false
      backendRemediationShown := true
      notif := none
      connectionStatus := "disconnected" }
  else
    { ollamaChecked := true
      overlayHidden := true
      backendRemediationShown := false
      notif := some
        (if ollamaOk then
          ⟨"Concepta ready! Using Phi-3 Mini (3.8B) 🚀", NotifKind.success⟩
        else
          ⟨"Concepta ready! Using mock responses (Start Ollama for AI)",
            NotifKind.warning⟩)
      connectionStatus := "connected" }

/-- A small concrete deck for evaluating the theorems. -/
def demoDeck : List Flashcard :=
  [⟨"What is 1+1?", "2"⟩, ⟨"What is 2+2?", "4"⟩, ⟨"What is 3+3?", "6"⟩]

/-- A concrete state holding `demoDeck` with the cursor on card 1. -/
def demoState : AppState :=
  { initialState with
      flashcards := demoDeck
      currentFlashcardIndex := 1
      isFlashcardFlipped := true }

/-- Claim C1: for a deck of length `len ≥ 1` and current index
`i < len`, `navigateFlashcard(±1)` sets the index to
`(i + direction + len) mod len` and clears the flipped flag; applying
`navigateFlashcard(+1)` exactly `len` times returns the cursor to its
starting index; on an empty deck the operation leaves the state
unchanged. -/
theorem navigateFlashcard_wraps_circularly (st : AppState) (d : Int)
    (hd : d = 1 ∨ d = -1) :
    (0 < st.flashcards.length →
      st.currentFlashcardIndex < st.flashcards.length →
      ((navigateFlashcard st d).currentFlashcardIndex : ℤ)
          = ((st.currentFlashcardIndex : ℤ) + d + st.flashcards.length)
              % (st.flashcards.length : ℤ)
        ∧ (navigateFlashcard st d).isFlashcardFlipped = false)
    ∧ (st.currentFlashcardIndex < st.flashcards.length →
        ((fun s => navigateFlashcard s 1)^[st.flashcards.length] st).currentFlashcardIndex
          = st.currentFlashcardIndex)
    ∧ (st.flashcards.length = 0 → navigateFlashcard st d = st) := by
  refine ⟨?_, ?_, ?_⟩
  · intro h0 hi
    refine ⟨?_, navigateFlashcard_flipped st d h0⟩
    rcases hd with hd | hd
    · subst hd
      rw [navigateFlashcard_index_plus_one st h0 hi]
      rw [Int.natCast_mod]
      have hc : ((st.currentFlashcardIndex + 1 : ℕ) : ℤ)
          = (st.currentFlashcardIndex : ℤ) + 1 := by omega
      rw [hc]
      rw [show ((st.currentFlashcardIndex : ℤ) + 1 + st.flashcards.length)
          = ((st.currentFlashcardIndex : ℤ) + 1)
              + (st.flashcards.length : ℤ) * 1 by ring]
      rw [Int.add_mul_emod_self_left]
    · subst hd
      rw [navigateFlashcard_index_minus_one st h0 hi]
      rw [Int.natCast_mod]
      have hc : ((st.currentFlashcardIndex + st.flashcards.length - 1 : ℕ) : ℤ)
          = (st.currentFlashcardIndex : ℤ) + st.flashcards.length - 1 := by
        omega
      rw [hc]
      congr 1
      ring
  · intro hi
    rcases Nat.eq_zero_or_pos st.flashcards.length with h0 | h0
    · rw [h0, Function.iterate_zero_apply]
    · have h := (navigateFlashcard_iterate st st.flashcards.length h0 hi).2
      rw [h, Nat.add_mod_right, Nat.mod_eq_of_lt hi]
  · intro h
    unfold navigateFlashcard
    rw [if_pos h]

/-- Evaluation of the C1 theorem on `demoState` (deck of 3, cursor 1). -/
theorem navigateFlashcard_wraps_circularly_witness :
    (((navigateFlashcard demoState 1).currentFlashcardIndex : ℤ)
        = ((demoState.currentFlashcardIndex : ℤ) + 1 + demoState.flashcards.length)
            % (demoState.flashcards.length : ℤ)
      ∧ (navigateFlashcard demoState 1).isFlashcardFlipped = false)
    ∧ ((fun s => navigateFlashcard s 1)^[demoState.flashcards.length] demoState).currentFlashcardIndex
        = demoState.currentFlashcardIndex := by
  have h := navigateFlashcard_wraps_circularly demoState 1 (Or.inl rfl)
  exact ⟨h.1 (by decide) (by decide), h.2.1 (by decide)⟩

/-- Refutation of claim C2's empty-deck clause: on the initial state
(empty deck), `flipFlashcard()` is not a no-op — the source (app.js
741-744) has no empty-deck guard and toggles the flag regardless. -/
theorem flipFlashcard_empty_deck_not_noop :
    initialState.flashcards = [] ∧ flipFlashcard initialState ≠ initialState := by
  decide

/-- Claim C2 (amended): `flipFlashcard()` always toggles
`isFlashcardFlipped` — including on an empty deck, where it is not a
no-op — so calling it twice restores the state exactly; the deck itself
is never touched. -/
theorem flipFlashcard_toggles (st : AppState) :
    flipFlashcard (flipFlashcard st) = st
      ∧ (flipFlashcard st).isFlashcardFlipped = !st.isFlashcardFlipped
      ∧ (flipFlashcard st).flashcards = st.flashcards := by
  refine ⟨?_, rfl, rfl⟩
  simp [flipFlashcard]

/-- Claim C3: for every sequence of random draws, `shuffleFlashcards()`
yields a deck that is a permutation of the same elements (multiset
preserved), resets the cursor to 0 and the flipped flag to false on a
non-empty deck, and is a no-op on an empty deck. -/
theorem shuffleFlashcards_permutes (c : Nat → Nat) (st : AppState) :
    (((shuffleFlashcards c st).1.flashcards : Multiset Flashcard)
        = (st.flashcards : Multiset Flashcard))
    ∧ (0 < st.flashcards.length →
        (shuffleFlashcards c st).1.currentFlashcardIndex = 0
          ∧ (shuffleFlashcards c st).1.isFlashcardFlipped = false)
    ∧ (st.flashcards.length = 0 → shuffleFlashcards c st = (st, none)) := by
  by_cases h : st.flashcards.length = 0
  · refine ⟨?_, ?_, ?_⟩
    · simp [shuffleFlashcards, h]
    · intro h0
      omega
    · intro _
      simp [shuffleFlashcards, h]
  · refine ⟨?_, ?_, ?_⟩
    · simp only [shuffleFlashcards, if_neg h]
      exact Multiset.coe_eq_coe.mpr
        (fyLoop_perm c (st.flashcards.length - 1) st.flashcards)
    · intro _
      simp [shuffleFlashcards, h]
    · intro h0
      omega

/-- Evaluation of the C3 theorem on `demoState` with the draw stream
constantly 0. -/
theorem shuffleFlashcards_permutes_witness :
    (((shuffleFlashcards (fun _ => 0) demoState).1.flashcards : Multiset Flashcard)
        = (demoState.flashcards : Multiset Flashcard))
      ∧ (shuffleFlashcards (fun _ => 0) demoState).1.currentFlashcardIndex = 0
      ∧ (shuffleFlashcards (fun _ => 0) demoState).1.isFlashcardFlipped = false := by
  have h := shuffleFlashcards_permutes (fun _ => 0) demoState
  exact ⟨h.1, (h.2.1 (by decide)).1, (h.2.1 (by decide)).2⟩

set_option maxRecDepth 4000 in
/-- Refutation of claim C4's "the generation call is still issued"
clause: submitting a 501-character topic makes `generateExplanation()`
truncate, warn and `return` (app.js 333-337) — no fetch is issued on
that submission. -/
theorem overlong_topic_blocks_submission :
    500 < (jsTrim (List.replicate 501 'a')).length
      ∧ (generateExplanationCheck (List.replicate 501 'a')).callIssued = false := by
  constructor
  · decide
  · decide

/-- Claim C4 (amended): submitting input whose trimmed text exceeds the
field's limit truncates the stored value to exactly the limit length
and raises the handler's warning/info toast, but the generation call
for that submission is **not** issued (the handler returns early); any
submission that does issue the call sends text of at most the limit, so
sent text never exceeds the limit on first or subsequent
submissions. -/
theorem submitCheck_truncates_and_blocks (limit : Nat)
    (emptyMsg overMsg : String) (overKind : NotifKind) (value : List Char)
    (hover : limit < (jsTrim value).length) :
    (submitCheck limit emptyMsg overMsg overKind value).newValue.length = limit
      ∧ (submitCheck limit emptyMsg overMsg overKind value).notif
          = some ⟨overMsg, overKind⟩
      ∧ (submitCheck limit emptyMsg overMsg overKind value).callIssued = false
      ∧ ∀ w : List Char,
          (submitCheck limit emptyMsg overMsg overKind w).callIssued = true →
          (submitCheck limit emptyMsg overMsg overKind w).sentText.length
            ≤ limit := by
  have ht0 : ¬ (jsTrim value).length = 0 := by omega
  have hgt : (jsTrim value).length > limit := hover
  refine ⟨?_, ?_, ?_, ?_⟩
  · simp [submitCheck, ht0, hgt]
    omega
  · simp [submitCheck, ht0, hgt]
  · simp [submitCheck, ht0, hgt]
  · intro w hw
    by_cases h1 : (jsTrim w).length = 0
    · simp [submitCheck, h1] at hw
    · by_cases h2 : (jsTrim w).length > limit
      · simp [submitCheck, h1, h2] at hw
      · simp [submitCheck, h1, h2]
        omega

/-- Evaluation of the C4 theorem at limit 2 on the input "abc". -/
theorem submitCheck_truncates_and_blocks_witness :
    (submitCheck 2 "e" "o" NotifKind.info ['a', 'b', 'c']).newValue.length = 2
      ∧ (submitCheck 2 "e" "o" NotifKind.info ['a', 'b', 'c']).notif
          = some ⟨"o", NotifKind.info⟩
      ∧ (submitCheck 2 "e" "o" NotifKind.info ['a', 'b', 'c']).callIssued = false
      ∧ (submitCheck 2 "e" "o" NotifKind.info ['a']).sentText.length ≤ 2 := by
  have h := submitCheck_truncates_and_blocks 2 "e" "o" NotifKind.info
    ['a', 'b', 'c'] (by decide)
  exact ⟨h.1, h.2.1, h.2.2.1, h.2.2.2 ['a'] (by decide)⟩

/-- Refutation of claim C5's "not surfaced to the user as an error"
clause: `loadFlashcards()` on malformed stored JSON hits its `catch`
(app.js 673-675), which raises an `error` toast. -/
theorem loadFlashcards_malformed_raises_error :
    (loadFlashcards initialState StoredData.malformed).2
      = some ⟨"Failed to load flashcards", NotifKind.error⟩ := by
  decide

/-- Claim C5 (amended): absent or malformed persisted settings leave
the state at its defaults with nothing surfaced to the user
(`loadSettings` only logs); `loadFlashcards` also leaves the state
untouched on absent or malformed data, and issues an `info` toast when
no data is saved — but malformed flashcard data raises an `error`
toast rather than being swallowed silently. -/
theorem load_operations_on_bad_data (st : AppState) :
    loadSettings st StoredData.absent = st
      ∧ loadSettings st StoredData.malformed = st
      ∧ (loadFlashcards st StoredData.absent).1 = st
      ∧ (loadFlashcards st StoredData.absent).2
          = some ⟨"No saved flashcards found", NotifKind.info⟩
      ∧ (loadFlashcards st StoredData.malformed).1 = st
      ∧ (loadFlashcards st StoredData.malformed).2
          = some ⟨"Failed to load flashcards", NotifKind.error⟩ :=
  ⟨rfl, rfl, rfl, rfl, rfl, rfl⟩

/-- Claim C6: whenever the backend health check fails,
`initializeApp()` halts there — the Ollama check never runs (the
Ollama check runs exactly when the backend check succeeds), the
loading overlay is never hidden, and the persistent remediation
instructions are shown. -/
theorem initializeApp_halts_on_backend_failure (backendOk ollamaOk : Bool) :
    (initializeApp backendOk ollamaOk).ollamaChecked = backendOk
      ∧ (initializeApp false ollamaOk).ollamaChecked = false
      ∧ (initializeApp false ollamaOk).overlayHidden = false
      ∧ (initializeApp false ollamaOk).backendRemediationShown = true
      ∧ (initializeApp false ollamaOk).notif = none := by
  cases backendOk <;> exact ⟨rfl, rfl, rfl, rfl, rfl⟩

/-- Claim C7: a 2xx quiz response whose `questions` list is present and
empty renders the empty-state panel (not the error panel) and raises a
success toast, not an error one. -/
theorem quiz_empty_questions_renders_empty_state (difficulty : String) :
    generateQuizResponse ⟨some [], difficulty⟩
      = (QuizPanel.emptyState,
          ⟨"Quiz generated with 0 questions!", NotifKind.success⟩) := rfl

/-- Claim C8: with a non-empty deck and a successful storage write,
`saveFlashcards()` followed by `loadFlashcards()` reproduces the exact
prior deck field-for-field, with the cursor reset to 0 and the flipped
flag to false. -/
theorem save_load_roundtrip (st : AppState)
    (store : StoredData (List Flashcard)) (hne : st.flashcards ≠ []) :
    (loadFlashcards st (saveFlashcards st store true).store).1.flashcards
        = st.flashcards
      ∧ (loadFlashcards st
          (saveFlashcards st store true).store).1.currentFlashcardIndex = 0
      ∧ (loadFlashcards st
          (saveFlashcards st store true).store).1.isFlashcardFlipped
            = false := by
  have h : ¬ st.flashcards.length = 0 := fun hl =>
    hne (List.length_eq_zero.mp hl)
  simp [saveFlashcards, h, loadFlashcards]

/-- Evaluation of the C8 theorem on `demoState`. -/
theorem save_load_roundtrip_witness :
    (loadFlashcards demoState
        (saveFlashcards demoState StoredData.absent true).store).1.flashcards
        = demoState.flashcards
      ∧ (loadFlashcards demoState
          (saveFlashcards demoState
            StoredData.absent true).store).1.currentFlashcardIndex = 0
      ∧ (loadFlashcards demoState
          (saveFlashcards demoState
            StoredData.absent true).store).1.isFlashcardFlipped = false :=
  save_load_roundtrip demoState StoredData.absent (by decide)

/-- Claim C9: a 2xx `/flashcards` response whose body lacks the
`flashcards` array replaces the deck with the empty deck (cursor 0,
flipped false) and raises a success toast reporting 0 generated
flashcards. -/
theorem generateFlashcards_missing_field_empties_deck (st : AppState) :
    (generateFlashcardsResponse st none).1.flashcards = []
      ∧ (generateFlashcardsResponse st none).1.currentFlashcardIndex = 0
      ∧ (generateFlashcardsResponse st none).1.isFlashcardFlipped = false
      ∧ (generateFlashcardsResponse st none).2
          = ⟨"Generated 0 flashcards with Phi-3!", NotifKind.success⟩ :=
  ⟨rfl, rfl, rfl, rfl⟩

/-- Claim C10: with an empty deck, `saveFlashcards()` performs no
storage write — whatever deck is already persisted stays exactly as it
was — and only raises a warning toast. -/
theorem saveFlashcards_empty_deck_frame (st : AppState)
    (store : StoredData (List Flashcard)) (writeOk : Bool)
    (h : st.flashcards = []) :
    saveFlashcards st store writeOk
      = ⟨store, ⟨"No flashcards to save", NotifKind.warning⟩⟩ := by
  simp [saveFlashcards, h]

/-- Evaluation of the C10 theorem: saving on an empty in-memory deck
leaves a previously persisted `demoDeck` untouched. -/
theorem saveFlashcards_empty_deck_frame_witness :
    saveFlashcards initialState (StoredData.valid demoDeck) true
      = ⟨StoredData.valid demoDeck,
          ⟨"No flashcards to save", NotifKind.warning⟩⟩ :=
  saveFlashcards_empty_deck_frame initialState (StoredData.valid demoDeck)
    true rfl
